import Mathlib

/-!
Verification development for the `go-catch` session-capture tool
(`cmd/catch/main.go`). The pipeline polls the MySQL processlist, filters
records, classifies statements by substring inspection, renders each record
to a colorized console sink and a plain file sink, and tracks a debug-mode
rolling query counter.

The embedding below translates the Go source directly:
- Go strings become Lean `String`; `strings.Contains` becomes `goContains`
  (exact, case-sensitive substring containment) and `strings.ToLower`
  becomes `goToLower` (ASCII lowering, which matches Go on the ASCII inputs
  involved here);
- `sql.NullString` fields are modelled by their `.String` projection (the
  only projection the source reads);
- the `fatih/color` package's `SprintFunc` wrapping is modelled by
  `colorWrap`, parameterised by the package-global `color.NoColor` flag
  (true when stdout is not a terminal / NO_COLOR is set, false in the
  normal interactive case); when `NoColor` is false a `Sprint` call wraps
  its argument in ANSI escape sequences built from the attribute codes;
- the body of the infinite `for` loop in `main` (one poll cycle) becomes
  `runCycle`, with the file-open result, the `getProcessList` result, and
  the per-call `WriteString` outcomes supplied as inputs; `panic` is
  modelled as `Except.error`, console prints that carry no state are
  recorded only where a claim needs them (error messages), and the
  wall-clock "more than 5 seconds since last stats report" test is the
  input `since5`.
-/

/-- Exact (case-sensitive) substring test on `List Char`: Go
`strings.Contains` semantics. The pattern is matched at each successive
offset of the haystack. -/
def listContains (pat : List Char) : List Char → Bool
  | [] => pat.isEmpty
  | c :: rest => pat.isPrefixOf (c :: rest) || listContains pat rest

/-- Go `strings.Contains s substr`. -/
def goContains (s substr : String) : Bool :=
  listContains substr.data s.data

/-- Go `strings.ToLower` restricted to ASCII (all inputs the source lowers
are ASCII SQL keywords and statements). -/
def goToLower (s : String) : String :=
  ⟨s.data.map Char.toLower⟩

/-- A session record: Go struct `Process` (main.go lines 27-36), with the
`sql.NullString` fields `DB`, `State`, `Info` modelled by their `.String`
projection, the only one the source ever reads. -/
structure Process where
  ID : Int
  User : String
  Host : String
  DB : String
  Command : String
  Time : Int
  State : String
  Info : String
deriving DecidableEq

/-- The color attributes `main.go` passes to `color.New`. -/
inductive Attribute where
  | FgRed
  | FgGreen
  | FgYellow
  | FgBlue
  | FgMagenta
  | FgCyan
  | Bold
deriving DecidableEq

/-- ANSI SGR code of each attribute, as defined by the `fatih/color`
package (`Bold = 1`, foreground colors 31-36). -/
def attrCode : Attribute → Nat
  | Attribute.FgRed => 31
  | Attribute.FgGreen => 32
  | Attribute.FgYellow => 33
  | Attribute.FgBlue => 34
  | Attribute.FgMagenta => 35
  | Attribute.FgCyan => 36
  | Attribute.Bold => 1

/-- `fatih/color` `SprintFunc` application: when the package-global
`NoColor` is false the text is wrapped as `ESC[<codes>m<text>ESC[0m`,
with the attribute codes joined by a semicolon; when `NoColor` is true the
text is returned unchanged. -/
def colorWrap (noColor : Bool) (c : List Attribute) (s : String) : String :=
  if noColor then s
  else "\x1b[" ++ String.intercalate ";" (c.map (fun a => toString (attrCode a))) ++ "m"
       ++ s ++ "\x1b[0m"

/-- The color-selection `switch` of `formatProcessOutput` (main.go lines
79-107): starting from the defaults `stateColor = yellow`,
`infoColor = cyan`, when `useColor` is set the cases are tried top to
bottom, first hit wins. Returns `(stateColor, infoColor)`. -/
def processColors (p : Process) (useColor : Bool) : List Attribute × List Attribute :=
  if useColor then
    if p.State == "login" then
      ([Attribute.FgRed], [Attribute.FgCyan])
    else if p.State == "Receiving from client" then
      ([Attribute.FgBlue], [Attribute.FgCyan])
    else if goContains (goToLower p.Info) "select" then
      if goContains (goToLower p.Info) "count(*)" then
        ([Attribute.FgGreen], [Attribute.FgMagenta, Attribute.Bold])
      else if goContains (goToLower p.Info) "limit" then
        ([Attribute.FgGreen], [Attribute.FgGreen, Attribute.Bold])
      else
        ([Attribute.FgGreen], [Attribute.FgCyan, Attribute.Bold])
    else if goContains (goToLower p.Info) "insert" then
      ([Attribute.FgYellow], [Attribute.FgGreen, Attribute.Bold])
    else if goContains (goToLower p.Info) "update" then
      ([Attribute.FgYellow], [Attribute.FgYellow, Attribute.Bold])
    else if goContains (goToLower p.Info) "delete" then
      ([Attribute.FgYellow], [Attribute.FgRed, Attribute.Bold])
    else if goContains (goToLower p.Info) "create" || goContains (goToLower p.Info) "alter"
        || goContains (goToLower p.Info) "drop" then
      ([Attribute.FgYellow], [Attribute.FgMagenta, Attribute.Bold])
    else
      ([Attribute.FgYellow], [Attribute.FgCyan])
  else
    ([Attribute.FgYellow], [Attribute.FgCyan])

/-- Go `formatProcessOutput` (main.go lines 76-123): header banner with the
render-time timestamp (externalised here as `timestamp`), then the labeled
fields. Note that the `stateColor`/`infoColor` `SprintFunc`s are applied to
STATE and INFO unconditionally — also when `useColor` is false, where they
hold their default values yellow/cyan. -/
def formatProcessOutput (p : Process) (useColor noColor : Bool) (timestamp : String) : String :=
  "*************************** Process Info @ " ++ timestamp
    ++ " ***************************\n" ++
  ("       ID: " ++ toString p.ID ++ "\n" ++
   "     USER: " ++ p.User ++ "\n" ++
   "     HOST: " ++ p.Host ++ "\n" ++
   "       DB: " ++ p.DB ++ "\n" ++
   "  COMMAND: " ++ p.Command ++ "\n" ++
   "     TIME: " ++ toString p.Time ++ "\n" ++
   "    STATE: " ++ colorWrap noColor (processColors p useColor).1 p.State ++ "\n" ++
   "     INFO: " ++ colorWrap noColor (processColors p useColor).2 p.Info ++ "\n\n")

/-- The part of a rendered record that precedes the STATE field: banner
line and the ID, USER, HOST, DB, COMMAND and TIME fields, exactly as laid
out by `formatProcessOutput`. -/
def recordCommonHead (p : Process) (timestamp : String) : String :=
  "*************************** Process Info @ " ++ timestamp
    ++ " ***************************\n" ++
  ("       ID: " ++ toString p.ID ++ "\n" ++
   "     USER: " ++ p.User ++ "\n" ++
   "     HOST: " ++ p.Host ++ "\n" ++
   "       DB: " ++ p.DB ++ "\n" ++
   "  COMMAND: " ++ p.Command ++ "\n" ++
   "     TIME: " ++ toString p.Time ++ "\n")

/-- Go `isMonitoringQuery` (main.go lines 125-129): the statement contains
both the session-table reference and the exclusion-clause text of the
tool's own processlist query. -/
def isMonitoringQuery (info : String) : Bool :=
  goContains info "FROM information_schema.processlist" &&
  goContains info "WHERE command != \x27Sleep\x27"

/-- The `isQuery` test of the poll loop (main.go lines 204-210): exact,
case-sensitive containment of the seven lowercase DML/DDL keywords in the
raw statement text (the source does not lower-case here). -/
def isQuery (info : String) : Bool :=
  goContains info "select" || goContains info "insert" || goContains info "update" ||
  goContains info "delete" || goContains info "create" || goContains info "alter" ||
  goContains info "drop"

/-- The debug-counter match of the poll loop (main.go lines 234-235):
again exact case-sensitive containment on the raw statement text. -/
def statsMatch (info : String) : Bool :=
  goContains info "select" || goContains info "count(" || goContains info "limit"

/-- The statement-category decision chain of the color switch (main.go
lines 87-106), the Classifier of spec section 4.1: lower-case the text and
test the keywords in fixed order, first match winning. -/
inductive Category where
  | select
  | insert
  | update
  | delete
  | ddl
  | unknown
deriving DecidableEq

/-- Classifier: the ordered statement-text conditions of the color switch
(main.go lines 87-106) read off as a category. -/
def classify (info : String) : Category :=
  if goContains (goToLower info) "select" then Category.select
  else if goContains (goToLower info) "insert" then Category.insert
  else if goContains (goToLower info) "update" then Category.update
  else if goContains (goToLower info) "delete" then Category.delete
  else if goContains (goToLower info) "create" || goContains (goToLower info) "alter"
      || goContains (goToLower info) "drop" then Category.ddl
  else Category.unknown

/-- The seven DML/DDL keywords, in the precedence order of the source. -/
def dmlKeywords : List String :=
  ["select", "insert", "update", "delete", "create", "alter", "drop"]

/-- Category named by each keyword (`create`, `alter`, `drop` share the
ddl category). Statement-side vocabulary for the Classifier theorems. -/
def categoryOf (kw : String) : Category :=
  if kw == "select" then Category.select
  else if kw == "insert" then Category.insert
  else if kw == "update" then Category.update
  else if kw == "delete" then Category.delete
  else Category.ddl

/-- The mode flags of the poll loop (the parsed `-d`, `-q`, `-v` flags). -/
structure CycleFlags where
  debugFlag : Bool
  queryFlag : Bool
  verboseFlag : Bool
deriving DecidableEq

/-- Per-cycle loop state: the rolling `queryCount`, the records whose
buffered file write succeeded, the records printed colorized to the
console, and the error lines printed to the console. -/
structure LoopSt where
  queryCount : Nat
  fileWrites : List Process
  consoleRecords : List Process
  consoleErrors : List String
deriving DecidableEq

/-- The per-record body of the poll loop (main.go lines 202-251). `we`
gives the outcome of each successive `writer.WriteString` call (true =
the write returns an error), consumed head-first; it is shifted by one
after every attempted write. On a write error the source prints
`Error writing to file: ...` and `continue`s, skipping both the file
record and the console print for that record; the error detail is
abstracted to the fixed message text. The verbose and debug `Printf`
lines carry no state and are not recorded. -/
def processRecs (fl : CycleFlags) : List Process → (Nat → Bool) → LoopSt → LoopSt
  | [], _, st => st
  | p :: rest, we, st =>
    if !fl.debugFlag && isMonitoringQuery p.Info then
      processRecs fl rest we st
    else if fl.queryFlag && !(isQuery p.Info) then
      processRecs fl rest we st
    else
      let st1 : LoopSt :=
        if fl.debugFlag && statsMatch p.Info then
          { st with queryCount := st.queryCount + 1 }
        else st
      if we 0 then
        processRecs fl rest (fun i => we (i + 1))
          { st1 with consoleErrors := st1.consoleErrors ++ ["Error writing to file"] }
      else
        processRecs fl rest (fun i => we (i + 1))
          { st1 with fileWrites := st1.fileWrites ++ [p],
                     consoleRecords := st1.consoleRecords ++ [p] }

/-- The two `continue` guards of the loop body combined into the record
emission decision (spec section 4.2: the Filter "decides emission"):
a record is emitted unless the self-exclusion guard or the queries-only
guard skips it. -/
def keepRecord (fl : CycleFlags) (p : Process) : Bool :=
  !(!fl.debugFlag && isMonitoringQuery p.Info) && !(fl.queryFlag && !(isQuery p.Info))

/-- Result of one poll cycle: the loop state after the batch, whether the
5-second stats report fired, the rolling counter carried into the next
cycle, and whether the end-of-cycle `time.Sleep` was reached. -/
structure CycleResult where
  loop : LoopSt
  statsReported : Bool
  queryCountAfter : Nat
  slept : Bool
deriving DecidableEq

/-- One iteration of the infinite `for` loop of `main` (main.go lines
175-266). `openErr` is the `os.OpenFile` outcome: on error the source
`panic`s, modelled as `Except.error`. `queryResult` is the
`getProcessList` outcome: on error the source prints `Error: ...`, closes
the file and `continue`s — reaching neither the stats check nor the
`time.Sleep` (`slept = false`). Otherwise the batch is processed, then in
debug mode, when more than 5 seconds have passed since the last report
(`since5`), the stats line is printed and `queryCount` resets to zero. -/
def runCycle (fl : CycleFlags) (openErr : Bool) (queryResult : Except String (List Process))
    (we : Nat → Bool) (qc0 : Nat) (since5 : Bool) : Except String CycleResult :=
  if openErr then Except.error "panic: open output file failed"
  else
    match queryResult with
    | Except.error e =>
        Except.ok ⟨⟨qc0, [], [], ["Error: " ++ e]⟩, false, qc0, false⟩
    | Except.ok procs =>
        let st := processRecs fl procs we ⟨qc0, [], [], []⟩
        if fl.debugFlag && since5 then
          Except.ok ⟨st, true, 0, true⟩
        else
          Except.ok ⟨st, false, st.queryCount, true⟩

/-- Sample record carrying a statement with no DML/DDL keyword. -/
def procShowTables : Process :=
  ⟨7, "app", "10.0.0.8:51322", "shop", "Query", 0, "executing", "SHOW TABLES"⟩

/-- Sample record carrying an upper-case SELECT statement. -/
def procUpperSelect : Process :=
  ⟨8, "app", "10.0.0.8:51323", "shop", "Query", 1, "executing", "SELECT 1"⟩

/-- Sample record carrying a lower-case select statement. -/
def procLowerSelect : Process :=
  ⟨9, "app", "10.0.0.8:51324", "shop", "Query", 1, "executing", "select 1"⟩

/-- Sample record whose statement carries both self-exclusion markers of
`isMonitoringQuery` and no lowercase DML/DDL keyword. -/
def procMonitoring : Process :=
  ⟨10, "root", "localhost", "", "Query", 0, "executing",
   "FROM information_schema.processlist WHERE command != \x27Sleep\x27"⟩

/-- Sample record in the `login` state whose statement contains `select`,
`count(*)` and `limit`. -/
def procLoginCount : Process :=
  ⟨11, "app", "10.0.0.8:51325", "shop", "Query", 4, "login", "select count(*) limit 5"⟩

/-- Sample record in a neutral state with an upper-case aggregate query. -/
def procCountStar : Process :=
  ⟨12, "app", "10.0.0.8:51326", "shop", "Query", 4, "executing",
   "SELECT COUNT(*) FROM t LIMIT 10"⟩

/-- String append is associative (via the list model of `String`). -/
theorem string_append_assoc (a b c : String) : a ++ b ++ c = a ++ (b ++ c) := by
  rcases a with ⟨la⟩
  rcases b with ⟨lb⟩
  rcases c with ⟨lc⟩
  show String.mk (la ++ lb ++ lc) = String.mk (la ++ (lb ++ lc))
  rw [List.append_assoc]

/-- Unfolding of `runCycle` when the output file opens successfully and the
data source returns a batch. -/
theorem runCycle_ok (fl : CycleFlags) (procs : List Process) (we : Nat → Bool)
    (qc0 : Nat) (s5 : Bool) :
    runCycle fl false (Except.ok procs) we qc0 s5 =
      if fl.debugFlag && s5 then
        Except.ok ⟨processRecs fl procs we ⟨qc0, [], [], []⟩, true, 0, true⟩
      else
        Except.ok ⟨processRecs fl procs we ⟨qc0, [], [], []⟩, false,
          (processRecs fl procs we ⟨qc0, [], [], []⟩).queryCount, true⟩ := rfl

/-- The rolling counter after a batch equals its initial value plus, in
debug mode, the number of emitted (filter-kept) records whose statement
matches the debug-counter test. -/
theorem processRecs_queryCount (fl : CycleFlags) :
    ∀ (procs : List Process) (we : Nat → Bool) (st : LoopSt),
      (processRecs fl procs we st).queryCount =
        st.queryCount +
          (if fl.debugFlag then
            ((procs.filter (fun p => keepRecord fl p)).filter
              (fun p => statsMatch p.Info)).length
          else 0) := by
  intro procs
  induction procs with
  | nil => intro we st; simp [processRecs]
  | cons p rest ih =>
    intro we st
    cases hdbg : fl.debugFlag with
    | false =>
      simp only [processRecs, hdbg]
      cases hmon : isMonitoringQuery p.Info with
      | true => simp [hmon, ih, hdbg]
      | false =>
        cases hq : (fl.queryFlag && !(isQuery p.Info)) with
        | true => simp [hmon, hq, ih, hdbg]
        | false =>
          cases hw : we 0 with
          | true => simp [hmon, hq, hw, hdbg, ih]
          | false => simp [hmon, hq, hw, hdbg, ih]
    | true =>
      simp only [processRecs, hdbg]
      cases hq : (fl.queryFlag && !(isQuery p.Info)) with
      | true =>
        have hk : keepRecord fl p = false := by simp [keepRecord, hq]
        simp [hq, ih, hdbg, hk, List.filter_cons]
      | false =>
        have hk : keepRecord fl p = true := by simp [keepRecord, hdbg, hq]
        cases hm : statsMatch p.Info with
        | true =>
          cases hw : we 0 with
          | true => simp [hq, hm, hw, hdbg, ih, hk, List.filter_cons]; omega
          | false => simp [hq, hm, hw, hdbg, ih, hk, List.filter_cons]; omega
        | false =>
          cases hw : we 0 with
          | true => simp [hq, hm, hw, hdbg, ih, hk, List.filter_cons]
          | false => simp [hq, hm, hw, hdbg, ih, hk, List.filter_cons]

/-- Console-shown records and successfully written file records coincide:
the loop appends a record to both sinks or to neither. -/
theorem processRecs_console_eq_file (fl : CycleFlags) :
    ∀ (procs : List Process) (we : Nat → Bool) (st : LoopSt),
      st.consoleRecords = st.fileWrites →
      (processRecs fl procs we st).consoleRecords =
        (processRecs fl procs we st).fileWrites := by
  intro procs
  induction procs with
  | nil => intro we st h; simpa [processRecs] using h
  | cons p rest ih =>
    intro we st h
    simp only [processRecs]
    cases hmon : (!fl.debugFlag && isMonitoringQuery p.Info) with
    | true => simp [hmon]; exact ih we st h
    | false =>
      cases hq : (fl.queryFlag && !(isQuery p.Info)) with
      | true => simp [hmon, hq]; exact ih we st h
      | false =>
        cases hm : (fl.debugFlag && statsMatch p.Info) with
        | true =>
          cases hw : we 0 with
          | true => simp [hmon, hq, hm, hw]; exact ih _ _ (by simp [h])
          | false => simp [hmon, hq, hm, hw]; exact ih _ _ (by simp [h])
        | false =>
          cases hw : we 0 with
          | true => simp [hmon, hq, hm, hw]; exact ih _ _ (by simp [h])
          | false => simp [hmon, hq, hm, hw]; exact ih _ _ (by simp [h])

/-- Every emitted (filter-kept) record is accounted for: it either reaches
the file sink or produces one console error line. -/
theorem processRecs_total (fl : CycleFlags) :
    ∀ (procs : List Process) (we : Nat → Bool) (st : LoopSt),
      (processRecs fl procs we st).fileWrites.length
        + (processRecs fl procs we st).consoleErrors.length =
      st.fileWrites.length + st.consoleErrors.length
        + (procs.filter (fun p => keepRecord fl p)).length := by
  intro procs
  induction procs with
  | nil => intro we st; simp [processRecs]
  | cons p rest ih =>
    intro we st
    simp only [processRecs]
    cases hmon : (!fl.debugFlag && isMonitoringQuery p.Info) with
    | true =>
      have hk : keepRecord fl p = false := by simp [keepRecord, hmon]
      simp [hmon, ih, hk, List.filter_cons]
    | false =>
      cases hq : (fl.queryFlag && !(isQuery p.Info)) with
      | true =>
        have hk : keepRecord fl p = false := by simp [keepRecord, hq]
        simp [hmon, hq, ih, hk, List.filter_cons]
      | false =>
        have hk : keepRecord fl p = true := by
          simp only [keepRecord, hmon, hq]; rfl
        cases hm : (fl.debugFlag && statsMatch p.Info) with
        | true =>
          cases hw : we 0 with
          | true => simp [hmon, hq, hm, hw, ih, hk, List.filter_cons]; omega
          | false => simp [hmon, hq, hm, hw, ih, hk, List.filter_cons]; omega
        | false =>
          cases hw : we 0 with
          | true => simp [hmon, hq, hm, hw, ih, hk, List.filter_cons]; omega
          | false => simp [hmon, hq, hm, hw, ih, hk, List.filter_cons]; omega

/-- C1 (counterexample): an error opening the daily output file IS fatal —
`os.OpenFile` failure hits `panic(err)` (main.go line 187), modelled as
`Except.error`, and the batch (here one perfectly writable record) is never
processed. This falsifies the claim that an error opening or writing the
output file is never fatal to the process. -/
theorem c1_open_error_panics :
    runCycle ⟨false, false, false⟩ true (Except.ok [procLowerSelect])
      (fun _ => false) 0 false =
    Except.error "panic: open output file failed" := rfl

/-- C1 (amended): once the daily output file has opened successfully, no
write error is fatal: whatever the batch and whichever writes fail, the
cycle returns normally and reaches the end-of-cycle sleep, the console
shows exactly the records whose file write succeeded, and every emitted
record is accounted for either by a successful file write or by a console
error report. -/
theorem c1_amended_write_errors_never_fatal (fl : CycleFlags) (procs : List Process)
    (we : Nat → Bool) (qc0 : Nat) (s5 : Bool) :
    ∃ r : CycleResult,
      runCycle fl false (Except.ok procs) we qc0 s5 = Except.ok r ∧
      r.slept = true ∧
      r.loop.consoleRecords = r.loop.fileWrites ∧
      r.loop.fileWrites.length + r.loop.consoleErrors.length =
        (procs.filter (fun p => keepRecord fl p)).length := by
  have hcf := processRecs_console_eq_file fl procs we ⟨qc0, [], [], []⟩ rfl
  have ht := processRecs_total fl procs we ⟨qc0, [], [], []⟩
  rw [runCycle_ok]
  cases hd : (fl.debugFlag && s5) with
  | true =>
    refine ⟨_, rfl, rfl, hcf, ?_⟩
    simpa using ht
  | false =>
    refine ⟨_, rfl, rfl, hcf, ?_⟩
    simpa using ht

/-- C2 (code bug): with the queries-only flag set, the keyword test
`isQuery` is case-sensitive (`strings.Contains` on the raw statement with
lowercase keywords, main.go lines 204-210, unlike the lower-casing at
lines 87 and 224), so the upper-case statement `SELECT 1` matches no
keyword and the record is dropped, contradicting the claim, the spec, and
the `-q` flag's own help text; `SHOW TABLES` is dropped as claimed, and
only the lower-case spelling `select 1` is kept. -/
theorem c2_queries_only_case_bug :
    isQuery "SELECT 1" = false ∧
    keepRecord ⟨false, true, false⟩ procShowTables = false ∧
    keepRecord ⟨false, true, false⟩ procUpperSelect = false ∧
    keepRecord ⟨false, true, false⟩ procLowerSelect = true := by decide

/-- C3 (counterexample): a record whose file write fails is NOT shown on
the console — the write-error branch `continue`s past the console print
(main.go lines 244-250). Here the only record of the batch is emitted by
the filter, its write fails, and the final state shows the error message
but an empty console-record list. -/
theorem c3_failed_write_record_not_on_console :
    keepRecord ⟨false, false, false⟩ procLowerSelect = true ∧
    processRecs ⟨false, false, false⟩ [procLowerSelect] (fun _ => true) ⟨0, [], [], []⟩ =
      ⟨0, [], [], ["Error writing to file"]⟩ := by decide

/-- C3 (amended): when an emitted record's file write fails, that record is
skipped entirely — it contributes only the console error message (and, in
debug mode, its rolling-counter increment, which precedes the write) — and
the remaining records of the batch are processed exactly as if it were
absent. -/
theorem c3_amended_failed_write_skips_record (fl : CycleFlags) (p : Process)
    (rest : List Process) (we : Nat → Bool) (st : LoopSt)
    (hk : keepRecord fl p = true) (hw : we 0 = true) :
    processRecs fl (p :: rest) we st =
      processRecs fl rest (fun i => we (i + 1))
        ⟨(if fl.debugFlag && statsMatch p.Info then st.queryCount + 1 else st.queryCount),
         st.fileWrites, st.consoleRecords,
         st.consoleErrors ++ ["Error writing to file"]⟩ := by
  have h1 : (!fl.debugFlag && isMonitoringQuery p.Info) = false := by
    simp only [keepRecord, Bool.and_eq_true, Bool.not_eq_true'] at hk
    exact hk.1
  have h2 : (fl.queryFlag && !(isQuery p.Info)) = false := by
    simp only [keepRecord, Bool.and_eq_true, Bool.not_eq_true'] at hk
    exact hk.2
  simp only [processRecs, h1, h2, hw]
  cases hm : (fl.debugFlag && statsMatch p.Info) with
  | true => simp [hm]
  | false => simp [hm]

/-- C3 (witness): the amended statement at a concrete batch — the first
record's write fails, and processing continues on the second record from a
state holding only the error message. -/
theorem c3_amended_witness :
    keepRecord ⟨false, false, false⟩ procLowerSelect = true ∧
    processRecs ⟨false, false, false⟩ [procLowerSelect, procUpperSelect]
        (fun _ => true) ⟨0, [], [], []⟩ =
      processRecs ⟨false, false, false⟩ [procUpperSelect] (fun _ => true)
        ⟨0, [], [], ["Error writing to file"]⟩ :=
  ⟨by decide,
   c3_amended_failed_write_skips_record ⟨false, false, false⟩ procLowerSelect
     [procUpperSelect] (fun _ => true) ⟨0, [], [], []⟩ (by decide) rfl⟩

/-- C4 (counterexample): when the data source errors, the cycle does NOT
reach the sleep — the error branch `continue`s the outer loop (main.go
lines 195-198), skipping the stats check, the flush and `time.Sleep`
(lines 253-265): here `slept = false` and `statsReported = false` even
though debug mode is on and the 5-second boundary has passed. Nothing is
written, as the claim says, but the next poll begins immediately, not
after the configured sleep interval. -/
theorem c4_source_error_skips_sleep :
    runCycle ⟨true, false, false⟩ false
      (Except.error "dial tcp 10.0.0.2:3306: connect: connection refused")
      (fun _ => false) 3 true =
    Except.ok ⟨⟨3, [], [], ["Error: dial tcp 10.0.0.2:3306: connect: connection refused"]⟩,
      false, 3, false⟩ := rfl

/-- C4 (amended): when the data source returns an error, the driver logs
`Error: ...` to the console and drops the batch — nothing is written to
either sink and the rolling counter is untouched — but it skips the
5-second stats report and the sleep: the next poll begins immediately. -/
theorem c4_amended_source_error_drops_batch (fl : CycleFlags) (e : String)
    (we : Nat → Bool) (qc0 : Nat) (s5 : Bool) :
    runCycle fl false (Except.error e) we qc0 s5 =
      Except.ok ⟨⟨qc0, [], [], ["Error: " ++ e]⟩, false, qc0, false⟩ := rfl

set_option maxRecDepth 8000 in
/-- C5 (code bug): the file sink does receive terminal color codes. The
file rendering `formatProcessOutput(p, false)` still applies the default
yellow/cyan `SprintFunc`s to STATE and INFO (main.go lines 119-120), so
whenever terminal colors are globally enabled (`color.NoColor = false`,
the normal interactive case) the bytes written to the file contain
`ESC[33m`/`ESC[36m` wrappers — despite the source's own comment `Write to
file without colors` — and the file bytes differ from a run with colors
globally disabled. Only with `NoColor = true` is the file free of escape
codes. -/
theorem c5_file_sink_gets_color_codes :
    goContains (formatProcessOutput procLowerSelect false false "2025-01-01 12:00:00")
      "\x1b[33m" = true ∧
    goContains (formatProcessOutput procLowerSelect false false "2025-01-01 12:00:00")
      "\x1b[36m" = true ∧
    formatProcessOutput procLowerSelect false false "2025-01-01 12:00:00" ≠
      formatProcessOutput procLowerSelect false true "2025-01-01 12:00:00" ∧
    goContains (formatProcessOutput procLowerSelect false true "2025-01-01 12:00:00")
      "\x1b[" = false := by decide

/-- C6 (counterexample): a record whose statement contains both
self-exclusion markers is dropped even with `debug = true` when the
queries-only flag is also set and the statement contains no lowercase
DML/DDL keyword — the queries-only guard (main.go lines 218-220) still
applies. This falsifies the claim that with debug on the record is kept. -/
theorem c6_debug_record_dropped_by_query_flag :
    isMonitoringQuery procMonitoring.Info = true ∧
    keepRecord ⟨true, true, false⟩ procMonitoring = false := by decide

/-- C6 (amended): with `debug = false` any record whose statement contains
both self-exclusion markers is dropped, regardless of its other fields and
of the queries-only flag; with `debug = true` the record passes the
self-exclusion guard and is kept provided the queries-only rule does not
drop it (the flag is off, or the statement contains a lowercase DML/DDL
keyword). -/
theorem c6_amended_self_exclusion (fl : CycleFlags) (p : Process)
    (hmon : isMonitoringQuery p.Info = true) :
    (fl.debugFlag = false → keepRecord fl p = false) ∧
    (fl.debugFlag = true → fl.queryFlag = false → keepRecord fl p = true) ∧
    (fl.debugFlag = true → isQuery p.Info = true → keepRecord fl p = true) := by
  refine ⟨fun h1 => ?_, fun h1 h2 => ?_, fun h1 h2 => ?_⟩
  · simp [keepRecord, hmon, h1]
  · simp [keepRecord, hmon, h1, h2]
  · simp [keepRecord, hmon, h1, h2]

/-- C6 (witness): the amended statement at the concrete marker record —
dropped with debug off, kept with debug on (queries-only off). -/
theorem c6_amended_witness :
    isMonitoringQuery procMonitoring.Info = true ∧
    keepRecord ⟨false, true, false⟩ procMonitoring = false ∧
    keepRecord ⟨true, false, false⟩ procMonitoring = true :=
  ⟨by decide,
   (c6_amended_self_exclusion ⟨false, true, false⟩ procMonitoring (by decide)).1 rfl,
   (c6_amended_self_exclusion ⟨true, false, false⟩ procMonitoring (by decide)).2.1 rfl rfl⟩

/-- C7 (confirmed): the classifier lower-cases the statement text and tests
the keywords in the fixed precedence order select, insert, update, delete,
then create/alter/drop, first match winning: a text containing none of the
seven keywords (case-insensitively) classifies as unknown, and a text
containing exactly one of them classifies as that keyword's category. -/
theorem c7_classifier_keyword_categories (info : String) :
    ((∀ kw, kw ∈ dmlKeywords → goContains (goToLower info) kw = false) →
      classify info = Category.unknown) ∧
    (∀ kw, kw ∈ dmlKeywords → goContains (goToLower info) kw = true →
      (∀ kw2, kw2 ∈ dmlKeywords → kw2 ≠ kw → goContains (goToLower info) kw2 = false) →
      classify info = categoryOf kw) := by
  constructor
  · intro h
    have h1 := h "select" (by simp [dmlKeywords])
    have h2 := h "insert" (by simp [dmlKeywords])
    have h3 := h "update" (by simp [dmlKeywords])
    have h4 := h "delete" (by simp [dmlKeywords])
    have h5 := h "create" (by simp [dmlKeywords])
    have h6 := h "alter" (by simp [dmlKeywords])
    have h7 := h "drop" (by simp [dmlKeywords])
    simp [classify, h1, h2, h3, h4, h5, h6, h7]
  · intro kw hmem hpos hneg
    have hmem2 : kw = "select" ∨ kw = "insert" ∨ kw = "update" ∨ kw = "delete" ∨
        kw = "create" ∨ kw = "alter" ∨ kw = "drop" := by
      simpa [dmlKeywords] using hmem
    rcases hmem2 with rfl | rfl | rfl | rfl | rfl | rfl | rfl
    · simp [classify, categoryOf, hpos]
    · have n1 := hneg "select" (by simp [dmlKeywords]) (by decide)
      simp [classify, categoryOf, hpos, n1]
    · have n1 := hneg "select" (by simp [dmlKeywords]) (by decide)
      have n2 := hneg "insert" (by simp [dmlKeywords]) (by decide)
      simp [classify, categoryOf, hpos, n1, n2]
    · have n1 := hneg "select" (by simp [dmlKeywords]) (by decide)
      have n2 := hneg "insert" (by simp [dmlKeywords]) (by decide)
      have n3 := hneg "update" (by simp [dmlKeywords]) (by decide)
      simp [classify, categoryOf, hpos, n1, n2, n3]
    · have n1 := hneg "select" (by simp [dmlKeywords]) (by decide)
      have n2 := hneg "insert" (by simp [dmlKeywords]) (by decide)
      have n3 := hneg "update" (by simp [dmlKeywords]) (by decide)
      have n4 := hneg "delete" (by simp [dmlKeywords]) (by decide)
      simp [classify, categoryOf, hpos, n1, n2, n3, n4]
    · have n1 := hneg "select" (by simp [dmlKeywords]) (by decide)
      have n2 := hneg "insert" (by simp [dmlKeywords]) (by decide)
      have n3 := hneg "update" (by simp [dmlKeywords]) (by decide)
      have n4 := hneg "delete" (by simp [dmlKeywords]) (by decide)
      simp [classify, categoryOf, hpos, n1, n2, n3, n4]
    · have n1 := hneg "select" (by simp [dmlKeywords]) (by decide)
      have n2 := hneg "insert" (by simp [dmlKeywords]) (by decide)
      have n3 := hneg "update" (by simp [dmlKeywords]) (by decide)
      have n4 := hneg "delete" (by simp [dmlKeywords]) (by decide)
      simp [classify, categoryOf, hpos, n1, n2, n3, n4]

/-- C7 (witness): the classifier at three concrete texts — a mixed-case
statement containing exactly the keyword insert, a keyword-free statement,
and the empty text. -/
theorem c7_classifier_witness :
    classify "Insert into production" = Category.insert ∧
    classify "SHOW TABLES" = Category.unknown ∧
    classify "" = Category.unknown :=
  ⟨(c7_classifier_keyword_categories "Insert into production").2 "insert"
      (by simp [dmlKeywords]) (by decide)
      (by
        intro kw2 h2 hne
        simp [dmlKeywords] at h2
        rcases h2 with rfl | rfl | rfl | rfl | rfl | rfl | rfl
        · decide
        · exact absurd rfl hne
        · decide
        · decide
        · decide
        · decide
        · decide),
   (c7_classifier_keyword_categories "SHOW TABLES").1 (by
      intro kw h
      simp [dmlKeywords] at h
      rcases h with rfl | rfl | rfl | rfl | rfl | rfl | rfl <;> decide),
   (c7_classifier_keyword_categories "").1 (by
      intro kw h
      simp [dmlKeywords] at h
      rcases h with rfl | rfl | rfl | rfl | rfl | rfl | rfl <;> decide)⟩

/-- C8 (counterexample): for a record in the `login` state the statement
emphasis does NOT resolve to strong-aggregate even though the statement
contains both select and count(*) — the state cases precede the statement
cases in the switch (main.go lines 83-86), so the info color stays at its
default cyan. -/
theorem c8_login_state_preempts_aggregate :
    goContains (goToLower procLoginCount.Info) "select" = true ∧
    goContains (goToLower procLoginCount.Info) "count(*)" = true ∧
    (processColors procLoginCount true).2 = [Attribute.FgCyan] ∧
    (processColors procLoginCount true).2 ≠ [Attribute.FgMagenta, Attribute.Bold] := by
  decide

/-- C8 (amended): for every record whose state is neither `login` nor
`Receiving from client`, a statement containing both select and count(*)
(case-insensitively) resolves to the strong-aggregate emphasis
(magenta + bold) and never to the strong-bounded emphasis (green + bold),
even when the text also contains limit — count(*) is tested before limit
inside the select branch. -/
theorem c8_amended_aggregate_emphasis (p : Process) (h1 : p.State ≠ "login")
    (h2 : p.State ≠ "Receiving from client")
    (hsel : goContains (goToLower p.Info) "select" = true)
    (hcnt : goContains (goToLower p.Info) "count(*)" = true) :
    (processColors p true).2 = [Attribute.FgMagenta, Attribute.Bold] ∧
    (processColors p true).2 ≠ [Attribute.FgGreen, Attribute.Bold] := by
  have e1 : (p.State == "login") = false := beq_eq_false_iff_ne.mpr h1
  have e2 : (p.State == "Receiving from client") = false := beq_eq_false_iff_ne.mpr h2
  constructor
  · simp [processColors, e1, e2, hsel, hcnt]
  · simp [processColors, e1, e2, hsel, hcnt]

/-- C8 (witness): the amended statement at a concrete record in a neutral
state whose upper-case statement contains select, count(*) and limit. -/
theorem c8_amended_witness :
    (processColors procCountStar true).2 = [Attribute.FgMagenta, Attribute.Bold] :=
  (c8_amended_aggregate_emphasis procCountStar (by decide) (by decide)
    (by decide) (by decide)).1

/-- C9 (confirmed): over a successful cycle, with debug on the rolling
counter grows by exactly one per emitted (filter-kept) record whose raw
statement contains select, count( or limit, and it is reset to zero at the
end of a cycle in which the 5-second report boundary was crossed
(otherwise it carries over); with debug off it is never incremented and
never reset. -/
theorem c9_rolling_stats_counter (fl : CycleFlags) (procs : List Process)
    (we : Nat → Bool) (qc0 : Nat) (s5 : Bool) (r : CycleResult)
    (h : runCycle fl false (Except.ok procs) we qc0 s5 = Except.ok r) :
    (fl.debugFlag = true →
      r.loop.queryCount = qc0 +
        ((procs.filter (fun p => keepRecord fl p)).filter
          (fun p => statsMatch p.Info)).length ∧
      (s5 = true → r.queryCountAfter = 0) ∧
      (s5 = false → r.queryCountAfter = r.loop.queryCount)) ∧
    (fl.debugFlag = false →
      r.loop.queryCount = qc0 ∧ r.queryCountAfter = qc0) := by
  rw [runCycle_ok] at h
  have hq := processRecs_queryCount fl procs we ⟨qc0, [], [], []⟩
  cases hdbg : fl.debugFlag with
  | false =>
    rw [hdbg] at h hq
    simp only [Bool.false_and, Bool.false_eq_true, if_false] at h
    obtain rfl := Except.ok.inj h
    simp only [Bool.false_eq_true, if_false, Nat.add_zero] at hq
    refine ⟨fun hc => by simp at hc, fun _ => ?_⟩
    constructor
    · simpa using hq
    · simpa using hq
  | true =>
    rw [hdbg] at h hq
    simp only [Bool.true_and, if_true] at h hq
    cases s5 with
    | true =>
      rw [if_pos rfl] at h
      obtain rfl := Except.ok.inj h
      exact ⟨fun _ => ⟨by simpa using hq, fun _ => rfl, fun hc => by simp at hc⟩,
             fun hc => by simp at hc⟩
    | false =>
      rw [if_neg (by decide)] at h
      obtain rfl := Except.ok.inj h
      exact ⟨fun _ => ⟨by simpa using hq, fun hc => by simp at hc, fun _ => rfl⟩,
             fun hc => by simp at hc⟩

/-- C9 (witness): a debug-mode cycle over one matching record with the
5-second boundary crossed — the counter counts the record within the cycle
and leaves the cycle reset to zero. -/
theorem c9_rolling_stats_witness :
    runCycle ⟨true, false, false⟩ false (Except.ok [procLowerSelect]) (fun _ => false) 0 true =
      Except.ok ⟨⟨1, [procLowerSelect], [procLowerSelect], []⟩, true, 0, true⟩ ∧
    (⟨⟨1, [procLowerSelect], [procLowerSelect], []⟩, true, 0, true⟩
        : CycleResult).loop.queryCount =
      0 + (([procLowerSelect].filter (fun p => keepRecord ⟨true, false, false⟩ p)).filter
        (fun p => statsMatch p.Info)).length ∧
    (⟨⟨1, [procLowerSelect], [procLowerSelect], []⟩, true, 0, true⟩
        : CycleResult).queryCountAfter = 0 :=
  ⟨rfl,
   ((c9_rolling_stats_counter ⟨true, false, false⟩ [procLowerSelect] (fun _ => false) 0 true
     ⟨⟨1, [procLowerSelect], [procLowerSelect], []⟩, true, 0, true⟩ rfl).1 rfl).1,
   ((c9_rolling_stats_counter ⟨true, false, false⟩ [procLowerSelect] (fun _ => false) 0 true
     ⟨⟨1, [procLowerSelect], [procLowerSelect], []⟩, true, 0, true⟩ rfl).1 rfl).2.1 rfl⟩

/-- C10 (confirmed): for any record and fixed render timestamp, the
colorized and plain renderings share byte-identical banner, ID, USER,
HOST, DB, COMMAND and TIME fields (and the STATE/INFO labels and record
separator); they differ at most in the STATE and INFO field values. -/
theorem c10_colorize_frame_effect (p : Process) (noColor : Bool) (ts : String) :
    ∃ a b c d : String,
      formatProcessOutput p true noColor ts =
        recordCommonHead p ts ++
          ("    STATE: " ++ (a ++ ("\n" ++ ("     INFO: " ++ (b ++ "\n\n"))))) ∧
      formatProcessOutput p false noColor ts =
        recordCommonHead p ts ++
          ("    STATE: " ++ (c ++ ("\n" ++ ("     INFO: " ++ (d ++ "\n\n"))))) := by
  have hST : ∀ X : String, "\n" ++ ("    STATE: " ++ X) = "\n    STATE: " ++ X := by
    intro X
    rw [← string_append_assoc]
    rfl
  have hINFO : ∀ X : String, "\n" ++ ("     INFO: " ++ X) = "\n     INFO: " ++ X := by
    intro X
    rw [← string_append_assoc]
    rfl
  refine ⟨colorWrap noColor (processColors p true).1 p.State,
          colorWrap noColor (processColors p true).2 p.Info,
          colorWrap noColor (processColors p false).1 p.State,
          colorWrap noColor (processColors p false).2 p.Info, ?_, ?_⟩ <;>
    simp [formatProcessOutput, recordCommonHead, string_append_assoc, hST, hINFO]
